import Mathlib

/-!
Verification of the utility functions in `src/utils.py` of the
`1-penten-3-one` repository: `get_taxon_id`, `get_taxonlist_species`
and `plot_bar`, shallowly embedded in Lean.

The remote NCBI Entrez service is modelled as an explicit function
argument: `esearch` stands for `Entrez.esearch` followed by
`Entrez.read`, and `esummary` for `Entrez.esummary` followed by
`Entrez.read`.  A transport failure (`urllib.error.HTTPError`) is
modelled as `Except.error ()`; a successful call returns the parsed
response.  For `esummary` the parsed response is a list of records, so
the `IndexError` raised by `Entrez.read(handle)[0]` on an empty
response corresponds exactly to `Except.ok []`.
-/

namespace Utils

/-- Parsed response of `Entrez.esearch`: exposes the `IdList` field
read on line 30 of `src/utils.py`. -/
structure ESearchRecord where
  IdList : List String
deriving DecidableEq

deriving instance DecidableEq for Except

/-- `get_taxon_id` from `src/utils.py` (lines 11-32).  The Entrez
search call is abstracted as `esearch db term retmax`, invoked with the
database, the term `f"{taxon_name}[orgn]"` and `retmax=10000` exactly
as on line 25.  `Except.error ()` stands for a raised `HTTPError`,
which the `except` clause (lines 27-28) converts into the sentinel
string; otherwise the `else` clause returns `record["IdList"]`.  The
Python function returns either a list or a string, modelled as a sum
type.  `ncbi_idtype` is accepted but, as in the source, never used. -/
def get_taxon_id (esearch : String → String → Nat → Except Unit ESearchRecord)
    (taxon_name : String) (ncbi_db : String := "taxonomy")
    (ncbi_idtype : String := "acc") : List String ⊕ String :=
  match esearch ncbi_db (taxon_name ++ "[orgn]") 10000 with
  | Except.error _ => Sum.inr "Database error, try later..."
  | Except.ok record => Sum.inl record.IdList

/-- One summary record of the Entrez taxonomy database: the three
fields read by `get_taxonlist_species` (lines 58-59 of
`src/utils.py`). -/
structure TaxonRecord where
  Rank : String
  Genus : String
  ScientificName : String
deriving DecidableEq

/-- The qualifying condition of line 58 of `src/utils.py`:
`(record['Rank']=='species' and record['Genus'] != '') or
record['Rank']=='genus'`. -/
def qualifiesRecord (record : TaxonRecord) : Bool :=
  (record.Rank == "species" && record.Genus != "") || record.Rank == "genus"

/-- The diagnostic message printed on line 52 of `src/utils.py` when an
`IndexError` is caught. -/
def indexErrorMsg : String := "New Error. Nemas Problemas!"

/-- The `for` loop of `get_taxonlist_species` (lines 46-59 of
`src/utils.py`), with the mutable state made explicit: `printed` is the
sequence of messages written to stdout so far and `species_taxa` the
accumulator initialised on line 45.  For each `taxon_id`:

* `esummary ncbi_db taxon_id = Except.error ()` models `HTTPError`
  raised by the fetch.  The corresponding `except` clause is commented
  out in the source (lines 54-55), so the exception propagates out of
  the whole function: the loop result is `Except.error ()` and the
  accumulated names are lost.
* `Except.ok []` models an empty response, where `Entrez.read(handle)[0]`
  raises `IndexError`: the handler on lines 51-52 prints the diagnostic
  and the loop continues with the next identifier.
* `Except.ok (record :: _)` is a successful fetch of the first element;
  the `else` clause (lines 57-59) appends `record["ScientificName"]`
  when the rank condition holds. -/
def taxonLoop (esummary : String → String → Except Unit (List TaxonRecord))
    (ncbi_db : String) (printed species_taxa : List String) :
    List String → List String × Except Unit (List String)
  | [] => (printed, Except.ok species_taxa)
  | taxon_id :: rest =>
    match esummary ncbi_db taxon_id with
    | Except.error _ => (printed, Except.error ())
    | Except.ok [] =>
        taxonLoop esummary ncbi_db (printed ++ [indexErrorMsg]) species_taxa rest
    | Except.ok (record :: _) =>
        if qualifiesRecord record then
          taxonLoop esummary ncbi_db printed
            (species_taxa ++ [record.ScientificName]) rest
        else
          taxonLoop esummary ncbi_db printed species_taxa rest

/-- `get_taxonlist_species` from `src/utils.py` (lines 35-61).  Returns
the printed diagnostics together with either the accumulated list of
scientific names (line 61) or `Except.error ()` when an uncaught
`HTTPError` escaped the loop. -/
def get_taxonlist_species (esummary : String → String → Except Unit (List TaxonRecord))
    (taxonlist : List String) (ncbi_db : String := "taxonomy") :
    List String × Except Unit (List String) :=
  taxonLoop esummary ncbi_db [] [] taxonlist

/-- Declarative description of what one loop iteration contributes to
the output list: the scientific name of the fetched record when it
qualifies, nothing otherwise.  Used to characterise the loop. -/
def qualName (esummary : String → String → Except Unit (List TaxonRecord))
    (ncbi_db taxon_id : String) : Option String :=
  match esummary ncbi_db taxon_id with
  | Except.ok (record :: _) =>
      if qualifiesRecord record then some record.ScientificName else none
  | _ => none

/-- Does the summary fetch for `taxon_id` return an empty response
(the `IndexError` case)? -/
def isEmptyResp (esummary : String → String → Except Unit (List TaxonRecord))
    (ncbi_db taxon_id : String) : Bool :=
  match esummary ncbi_db taxon_id with
  | Except.ok [] => true
  | _ => false

/-- Does the summary fetch for `taxon_id` raise a transport error
(`HTTPError`)? -/
def isHttpErr (esummary : String → String → Except Unit (List TaxonRecord))
    (ncbi_db taxon_id : String) : Bool :=
  match esummary ncbi_db taxon_id with
  | Except.error _ => true
  | _ => false

/-- One row of the aggregated dataframe produced on line 78 of
`src/utils.py` by `df.group_by(category).len()`: the category value
(which may be null) and the `len` count column. -/
structure GroupRow where
  cat : Option String
  len : Nat
deriving DecidableEq

/-- Append a value to a list of keys unless it is already present. -/
def insertKey {α : Type} [DecidableEq α] (ks : List α) (v : α) : List α :=
  if v ∈ ks then ks else ks ++ [v]

/-- The distinct values of a column, in order of first occurrence. -/
def distinctKeys {α : Type} [DecidableEq α] (col : List α) : List α :=
  col.foldl insertKey []

/-- The number of occurrences of the value `k` in the column `col`. -/
def keyCount {α : Type} [DecidableEq α] (col : List α) (k : α) : Nat :=
  (col.filter (fun v => decide (v = k))).length

/-- `df.group_by(category).len()` (line 78 of `src/utils.py`): one row
per distinct value of the category column (nulls form their own group
in polars), whose `len` is the number of occurrences.  Polars does not
guarantee a group order; first-occurrence order is fixed here, and no
theorem below depends on it. -/
def group_by_len (col : List (Option String)) : List GroupRow :=
  (distinctKeys col).map (fun k => ⟨k, keyCount col k⟩)

/-- `pd.Categorical(v, sort_order, ordered=True)` applied to one value
(line 80 of `src/utils.py`): a value listed in `sort_order` is kept,
any other value — including null — becomes null (NaN). -/
def listedCat (sort_order : List String) (v : Option String) : Option String :=
  match v with
  | some s => if s ∈ sort_order then some s else none
  | none => none

/-- The `is_in(filter_list)` predicate of line 84 of `src/utils.py`;
a null category value is never a member. -/
def inFilterList (filter_list : List String) (r : GroupRow) : Bool :=
  match r.cat with
  | some s => decide (s ∈ filter_list)
  | none => false

/-- The Altair chart built by `plot_bar` (lines 85-98 of
`src/utils.py`), restricted to the attributes the specification talks
about: the aggregated data behind the chart, the chart title, the
(overwritten) x-axis title, the legend title and the colour sort
order. -/
structure BarChart where
  data : List GroupRow
  title : String
  xTitle : String
  legendTitle : String
  sortOrder : List String
deriving DecidableEq

/-- `plot_bar` from `src/utils.py` (lines 63-99).  The input dataframe
is represented by its category column `df` (the only column the
function reads), each entry an `Option String` with `none` for a null
cell.  Following the source line by line:

* line 78 groups the rows and counts them (`group_by_len`);
* lines 79-81 convert to pandas, re-type the category column as an
  ordered categorical over `sort_order` — unlisted values and nulls
  become null — and convert back to polars;
* line 82 drops rows whose category is null;
* lines 83-84 optionally restrict to the values of `filter_list`;
* lines 85-98 build the chart; line 98 overwrites the x-axis title with
  `f"{x_title}, N={df['len'].sum()}"` computed from the filtered frame. -/
def plot_bar (df : List (Option String)) (sort_order : List String)
    (title x_title legend_title : String)
    (filter_list : Option (List String) := none) : BarChart :=
  let df1 := group_by_len df
  let df2 := df1.map (fun r => ⟨listedCat sort_order r.cat, r.len⟩)
  let df3 := df2.filter (fun r => r.cat.isSome)
  let df4 := match filter_list with
    | none => df3
    | some fl => df3.filter (inFilterList fl)
  { data := df4
    title := title
    xTitle := x_title ++ ", N=" ++ toString ((df4.map GroupRow.len).sum)
    legendTitle := legend_title
    sortOrder := sort_order }

/-- Spec-side row predicate: the category value survives both the
unconditional drop of nulls and values outside `sort_order`, and the
optional `filter_list` restriction. -/
def matchesFilters (sort_order : List String) (filter_list : Option (List String))
    (v : Option String) : Bool :=
  match v with
  | some s =>
      decide (s ∈ sort_order) &&
        (match filter_list with
         | none => true
         | some fl => decide (s ∈ fl))
  | none => false

/-- Spec-side total count: the number of raw dataset rows whose
category value survives the null/unlisted drop and the optional
`filter_list` restriction.  Computed directly on the input column,
independently of the grouping pipeline of `plot_bar`. -/
def totalAfterFilters (df : List (Option String)) (sort_order : List String)
    (filter_list : Option (List String)) : Nat :=
  (df.filter (matchesFilters sort_order filter_list)).length

/-- A Python dataframe value living on the heap: either a raw polars
frame of observations (of which only the category column matters here)
or a grouped count frame as produced by `group_by(...).len()`, in
either polars or pandas form. -/
inductive PyFrame
  | raw (rows : List (Option String))
  | grouped (rows : List GroupRow)
deriving DecidableEq

/-- The Python heap: dataframe objects addressed by position. -/
abbrev Heap : Type := List PyFrame

/-- Allocate a fresh dataframe object, returning the new heap and the
address of the object. -/
def allocF (h : Heap) (f : PyFrame) : Heap × Nat :=
  (h ++ [f], List.length h)

/-- Read a heap cell, with a dummy raw frame out of range. -/
def readF (h : Heap) (a : Nat) : PyFrame :=
  List.getD h a (PyFrame.raw [])

/-- The rows of a grouped frame (dummy value on a raw frame). -/
def groupedRowsOf : PyFrame → List GroupRow
  | PyFrame.raw _ => []
  | PyFrame.grouped rows => rows

/-- The category column of a raw frame (dummy value on a grouped
frame). -/
def rawRowsOf : PyFrame → List (Option String)
  | PyFrame.raw rows => rows
  | PyFrame.grouped _ => []

/-- Heap-level model of the dataframe pipeline of `plot_bar`
(lines 78-84 of `src/utils.py`), mirroring which Python statements
create a fresh dataframe object and which mutate one in place.  The
caller's frame lives at `dfAddr`; the local name `df` is re-bound to a
new address by every statement except line 80, whose
`df[category] = pd.Categorical(...)` assigns a column in place on the
pandas frame created by line 79's `to_pandas()`:

* line 78: `group_by(category).len()` allocates a grouped frame;
* line 79: `to_pandas()` allocates a copy;
* line 80: in-place column assignment (`List.set`) on that copy;
* line 81: `pl.from_pandas` allocates a copy;
* line 82: `filter(is_not_null)` allocates the filtered frame;
* lines 83-84: `filter(is_in(filter_list))` allocates, when requested.

Returns the final heap and the address the local `df` ends at. -/
def plot_bar_frames (h : Heap) (dfAddr : Nat) (sort_order : List String)
    (filter_list : Option (List String)) : Heap × Nat :=
  let rows := rawRowsOf (readF h dfAddr)
  let p1 := allocF h (PyFrame.grouped (group_by_len rows))
  let p2 := allocF p1.1 (readF p1.1 p1.2)
  let h3 := List.set p2.1 p2.2
    (PyFrame.grouped ((groupedRowsOf (readF p2.1 p2.2)).map
      (fun r => ⟨listedCat sort_order r.cat, r.len⟩)))
  let p4 := allocF h3 (readF h3 p2.2)
  let p5 := allocF p4.1
    (PyFrame.grouped ((groupedRowsOf (readF p4.1 p4.2)).filter
      (fun r => r.cat.isSome)))
  match filter_list with
  | none => p5
  | some fl =>
      allocF p5.1
        (PyFrame.grouped ((groupedRowsOf (readF p5.1 p5.2)).filter (inFilterList fl)))

/-- The heap behaviour the specification attributes to `plot_bar`: the
same pipeline as `plot_bar_frames`, but with the categorical re-typing
of line 80 also producing a new frame bound to the local variable,
instead of assigning a column in place on the pandas copy.  Used only
to compare against the actual heap behaviour. -/
def plot_bar_frames_allocOnly (h : Heap) (dfAddr : Nat) (sort_order : List String)
    (filter_list : Option (List String)) : Heap × Nat :=
  let rows := rawRowsOf (readF h dfAddr)
  let p1 := allocF h (PyFrame.grouped (group_by_len rows))
  let p2 := allocF p1.1 (readF p1.1 p1.2)
  let p3 := allocF p2.1
    (PyFrame.grouped ((groupedRowsOf (readF p2.1 p2.2)).map
      (fun r => ⟨listedCat sort_order r.cat, r.len⟩)))
  let p4 := allocF p3.1 (readF p3.1 p3.2)
  let p5 := allocF p4.1
    (PyFrame.grouped ((groupedRowsOf (readF p4.1 p4.2)).filter
      (fun r => r.cat.isSome)))
  match filter_list with
  | none => p5
  | some fl =>
      allocF p5.1
        (PyFrame.grouped ((groupedRowsOf (readF p5.1 p5.2)).filter (inFilterList fl)))

/-- Refinement restatement of the per-identifier rule of the
specification of `get_taxonlist_species`, in the words of the spec: if
the rank of the fetched record is "species" and its genus field is
non-empty, or its rank is "genus" regardless of the genus field, the
scientific name of the record is produced; otherwise (no record, or a
non-qualifying rank) nothing is produced. -/
def rankFilterSpec (esummary : String → String → Except Unit (List TaxonRecord))
    (ncbi_db taxon_id : String) : Option String :=
  match esummary ncbi_db taxon_id with
  | Except.ok (record :: _) =>
      if (record.Rank = "species" ∧ record.Genus ≠ "") ∨ record.Rank = "genus" then
        some record.ScientificName
      else none
  | _ => none

/-- A concrete Entrez summary service used to instantiate the theorems
about `get_taxonlist_species` on the concrete example inputs of the
specification: the identifier A resolves to a rank-species record with
an empty genus, B to a rank-genus record, C to a rank-species record
with a non-empty genus, E to an empty response (the IndexError case),
and every other identifier raises a transport error. -/
def exFetch : String → String → Except Unit (List TaxonRecord) :=
  fun _ taxon_id =>
    if taxon_id = "A" then Except.ok [⟨"species", "", "Aname"⟩]
    else if taxon_id = "B" then Except.ok [⟨"genus", "", "Bname"⟩]
    else if taxon_id = "C" then Except.ok [⟨"species", "Genus1", "Cname"⟩]
    else if taxon_id = "E" then Except.ok []
    else Except.error ()

/-- A second concrete summary service that answers exactly like
`exFetch` on the identifiers A, B and C but differs elsewhere; used to
instantiate the stability theorem. -/
def exFetch2 : String → String → Except Unit (List TaxonRecord) :=
  fun _ taxon_id =>
    if taxon_id = "A" then Except.ok [⟨"species", "", "Aname"⟩]
    else if taxon_id = "B" then Except.ok [⟨"genus", "", "Bname"⟩]
    else if taxon_id = "C" then Except.ok [⟨"species", "Genus1", "Cname"⟩]
    else Except.ok []

/-! ## Helper lemmas about the summary loop -/

theorem qualifiesRecord_iff (record : TaxonRecord) :
    qualifiesRecord record = true ↔
      (record.Rank = "species" ∧ record.Genus ≠ "") ∨ record.Rank = "genus" := by
  simp [qualifiesRecord]

theorem rankFilterSpec_eq_qualName
    (esummary : String → String → Except Unit (List TaxonRecord))
    (ncbi_db taxon_id : String) :
    rankFilterSpec esummary ncbi_db taxon_id = qualName esummary ncbi_db taxon_id := by
  unfold rankFilterSpec qualName
  cases he : esummary ncbi_db taxon_id with
  | error e => rfl
  | ok resp =>
    cases resp with
    | nil => rfl
    | cons record rs =>
      by_cases hq : (record.Rank = "species" ∧ record.Genus ≠ "") ∨ record.Rank = "genus"
      · have h2 : qualifiesRecord record = true := (qualifiesRecord_iff record).2 hq
        simp [hq, h2]
      · have h2 : qualifiesRecord record = false := by
          simpa using mt (qualifiesRecord_iff record).1 hq
        simp [hq, h2]

theorem taxonLoop_no_httpErr
    (esummary : String → String → Except Unit (List TaxonRecord)) (ncbi_db : String)
    (l : List String)
    (h : ∀ taxon_id ∈ l, isHttpErr esummary ncbi_db taxon_id = false) :
    ∀ printed species_taxa : List String,
    taxonLoop esummary ncbi_db printed species_taxa l =
      (printed ++ (l.filter (isEmptyResp esummary ncbi_db)).map (fun _ => indexErrorMsg),
       Except.ok (species_taxa ++ l.filterMap (qualName esummary ncbi_db))) := by
  induction l with
  | nil => intro printed acc; simp [taxonLoop]
  | cons taxon_id rest ih =>
    intro printed acc
    have hid := h taxon_id (List.mem_cons_self taxon_id rest)
    have hrest : ∀ x ∈ rest, isHttpErr esummary ncbi_db x = false :=
      fun x hx => h x (List.mem_cons_of_mem _ hx)
    cases he : esummary ncbi_db taxon_id with
    | error e => simp [isHttpErr, he] at hid
    | ok resp =>
      cases resp with
      | nil =>
        simp only [taxonLoop, he]
        rw [ih hrest (printed ++ [indexErrorMsg]) acc]
        simp [isEmptyResp, qualName, he, List.filter_cons, List.filterMap_cons]
      | cons record rs =>
        by_cases hq : qualifiesRecord record = true
        · simp only [taxonLoop, he, hq, if_true]
          rw [ih hrest printed (acc ++ [record.ScientificName])]
          simp [isEmptyResp, qualName, he, hq, List.filter_cons, List.filterMap_cons]
        · have hq2 : qualifiesRecord record = false := by simpa using hq
          simp only [taxonLoop, he, hq2, Bool.false_eq_true, if_false]
          rw [ih hrest printed acc]
          simp [isEmptyResp, qualName, he, hq2, List.filter_cons, List.filterMap_cons]

theorem taxonLoop_httpErr
    (esummary : String → String → Except Unit (List TaxonRecord)) (ncbi_db : String)
    (l : List String)
    (h : ∃ taxon_id ∈ l, isHttpErr esummary ncbi_db taxon_id = true) :
    ∀ printed species_taxa : List String,
    (taxonLoop esummary ncbi_db printed species_taxa l).2 = Except.error () := by
  induction l with
  | nil => obtain ⟨x, hx, _⟩ := h; exact absurd hx (List.not_mem_nil x)
  | cons taxon_id rest ih =>
    intro printed acc
    cases he : esummary ncbi_db taxon_id with
    | error e => simp [taxonLoop, he]
    | ok resp =>
      have hex : ∃ x ∈ rest, isHttpErr esummary ncbi_db x = true := by
        obtain ⟨x, hx, hxe⟩ := h
        rcases List.mem_cons.1 hx with hx1 | hx2
        · subst hx1; simp [isHttpErr, he] at hxe
        · exact ⟨x, hx2, hxe⟩
      cases resp with
      | nil => simpa [taxonLoop, he] using ih hex (printed ++ [indexErrorMsg]) acc
      | cons record rs =>
        by_cases hq : qualifiesRecord record = true
        · simpa [taxonLoop, he, hq] using ih hex printed (acc ++ [record.ScientificName])
        · have hq2 : qualifiesRecord record = false := by simpa using hq
          simpa [taxonLoop, he, hq2] using ih hex printed acc

theorem taxonLoop_ok_no_httpErr
    (esummary : String → String → Except Unit (List TaxonRecord)) (ncbi_db : String)
    (l : List String) (printed species_taxa names : List String)
    (h : (taxonLoop esummary ncbi_db printed species_taxa l).2 = Except.ok names) :
    ∀ taxon_id ∈ l, isHttpErr esummary ncbi_db taxon_id = false := by
  intro taxon_id hmem
  by_contra hc
  have hc2 : isHttpErr esummary ncbi_db taxon_id = true := by simpa using hc
  rw [taxonLoop_httpErr esummary ncbi_db l ⟨taxon_id, hmem, hc2⟩ printed species_taxa] at h
  exact Except.noConfusion h

theorem taxonLoop_congr
    (esummary1 esummary2 : String → String → Except Unit (List TaxonRecord))
    (ncbi_db : String) (l : List String)
    (h : ∀ taxon_id ∈ l, esummary1 ncbi_db taxon_id = esummary2 ncbi_db taxon_id) :
    ∀ printed species_taxa : List String,
    taxonLoop esummary1 ncbi_db printed species_taxa l =
      taxonLoop esummary2 ncbi_db printed species_taxa l := by
  induction l with
  | nil => intro printed acc; rfl
  | cons taxon_id rest ih =>
    intro printed acc
    have hid := h taxon_id (List.mem_cons_self taxon_id rest)
    have hrest : ∀ x ∈ rest, esummary1 ncbi_db x = esummary2 ncbi_db x :=
      fun x hx => h x (List.mem_cons_of_mem _ hx)
    simp only [taxonLoop, hid]
    cases esummary2 ncbi_db taxon_id with
    | error e => rfl
    | ok resp =>
      cases resp with
      | nil => exact ih hrest (printed ++ [indexErrorMsg]) acc
      | cons record rs =>
        by_cases hq : qualifiesRecord record = true
        · simp only [hq, if_true]
          exact ih hrest printed (acc ++ [record.ScientificName])
        · have hq2 : qualifiesRecord record = false := by simpa using hq
          simp only [hq2, Bool.false_eq_true, if_false]
          exact ih hrest printed acc

/-! ## Claims about `get_taxon_id` and `get_taxonlist_species` -/

/-- C2: on a remote transport/protocol error (`HTTPError`) during the
search request, `get_taxon_id` does not raise: the handler returns
exactly the sentinel string "Database error, try later..." in place of
the identifier list; the single `esearch` call is the only remote
request, so no retry is attempted. -/
theorem taxonResolver_sentinel_on_transport_error
    (esearch : String → String → Nat → Except Unit ESearchRecord)
    (taxon_name ncbi_db ncbi_idtype : String)
    (h : esearch ncbi_db (taxon_name ++ "[orgn]") 10000 = Except.error ()) :
    get_taxon_id esearch taxon_name ncbi_db ncbi_idtype =
      Sum.inr "Database error, try later..." := by
  simp [get_taxon_id, h]

theorem taxonResolver_sentinel_on_transport_error_wit :
    (fun _ _ _ => (Except.error () : Except Unit ESearchRecord)) "taxonomy"
        ("Chara" ++ "[orgn]") 10000 = Except.error () ∧
    get_taxon_id (fun _ _ _ => Except.error ()) "Chara" "taxonomy" "acc" =
      Sum.inr "Database error, try later..." :=
  ⟨rfl, taxonResolver_sentinel_on_transport_error
    (fun _ _ _ => Except.error ()) "Chara" "taxonomy" "acc" rfl⟩

/-- C7: when the remote search request completes without a transport
error, `get_taxon_id` returns the ordered `IdList` of the parsed
response — a list (`Sum.inl`), possibly empty, and never the sentinel
string. -/
theorem taxonResolver_returns_idlist
    (esearch : String → String → Nat → Except Unit ESearchRecord)
    (taxon_name ncbi_db ncbi_idtype : String) (record : ESearchRecord)
    (h : esearch ncbi_db (taxon_name ++ "[orgn]") 10000 = Except.ok record) :
    get_taxon_id esearch taxon_name ncbi_db ncbi_idtype = Sum.inl record.IdList := by
  simp [get_taxon_id, h]

theorem taxonResolver_returns_idlist_wit :
    (fun _ _ _ => (Except.ok ⟨["11879", "11880"]⟩ : Except Unit ESearchRecord)) "taxonomy"
        ("Chara" ++ "[orgn]") 10000 = Except.ok ⟨["11879", "11880"]⟩ ∧
    get_taxon_id (fun _ _ _ => Except.ok ⟨["11879", "11880"]⟩) "Chara" "taxonomy" "acc" =
      Sum.inl ["11879", "11880"] :=
  ⟨rfl, taxonResolver_returns_idlist
    (fun _ _ _ => Except.ok ⟨["11879", "11880"]⟩) "Chara" "taxonomy" "acc"
    ⟨["11879", "11880"]⟩ rfl⟩

/-- C1: when every summary fetch completes without a transport error,
`get_taxonlist_species` appends the scientific name of the fetched
record exactly when the rank is "species" with a non-empty genus, or
the rank is "genus" regardless of the genus field, in the relative
order of the input identifiers (`List.filterMap` preserves order);
`rankFilterSpec` restates this rule in the words of the
specification. -/
theorem rankFilter_appends_iff_qualifies
    (esummary : String → String → Except Unit (List TaxonRecord))
    (ncbi_db : String) (taxonlist : List String)
    (h : ∀ taxon_id ∈ taxonlist, isHttpErr esummary ncbi_db taxon_id = false) :
    (get_taxonlist_species esummary taxonlist ncbi_db).2 =
      Except.ok (taxonlist.filterMap (rankFilterSpec esummary ncbi_db)) := by
  have hfun : rankFilterSpec esummary ncbi_db = qualName esummary ncbi_db :=
    funext (rankFilterSpec_eq_qualName esummary ncbi_db)
  rw [get_taxonlist_species, taxonLoop_no_httpErr esummary ncbi_db taxonlist h [] [], hfun]
  simp

theorem rankFilter_appends_iff_qualifies_wit :
    (∀ taxon_id ∈ ["A", "B", "C"], isHttpErr exFetch "taxonomy" taxon_id = false) ∧
    (get_taxonlist_species exFetch ["A", "B", "C"]).2 =
      Except.ok (["A", "B", "C"].filterMap (rankFilterSpec exFetch "taxonomy")) ∧
    ["A", "B", "C"].filterMap (rankFilterSpec exFetch "taxonomy") = ["Bname", "Cname"] :=
  ⟨by decide,
   rankFilter_appends_iff_qualifies exFetch "taxonomy" ["A", "B", "C"] (by decide),
   by decide⟩

/-- C5: when no summary fetch raises a transport error, an identifier
whose summary response is empty (the `IndexError` case) contributes
exactly one diagnostic message to stdout and no name, and processing
continues: the returned names are those of all qualifying identifiers
of the whole list. -/
theorem rankFilter_skips_empty_response
    (esummary : String → String → Except Unit (List TaxonRecord))
    (ncbi_db : String) (taxonlist : List String)
    (h : ∀ taxon_id ∈ taxonlist, isHttpErr esummary ncbi_db taxon_id = false) :
    (get_taxonlist_species esummary taxonlist ncbi_db).1 =
        (taxonlist.filter (isEmptyResp esummary ncbi_db)).map (fun _ => indexErrorMsg) ∧
    (get_taxonlist_species esummary taxonlist ncbi_db).2 =
        Except.ok (taxonlist.filterMap (qualName esummary ncbi_db)) := by
  rw [get_taxonlist_species, taxonLoop_no_httpErr esummary ncbi_db taxonlist h [] []]
  simp

theorem rankFilter_skips_empty_response_wit :
    (∀ taxon_id ∈ ["A", "E", "C"], isHttpErr exFetch "taxonomy" taxon_id = false) ∧
    ((get_taxonlist_species exFetch ["A", "E", "C"]).1 =
        (["A", "E", "C"].filter (isEmptyResp exFetch "taxonomy")).map
          (fun _ => indexErrorMsg) ∧
     (get_taxonlist_species exFetch ["A", "E", "C"]).2 =
        Except.ok (["A", "E", "C"].filterMap (qualName exFetch "taxonomy"))) ∧
    (["A", "E", "C"].filter (isEmptyResp exFetch "taxonomy")).map
        (fun _ => indexErrorMsg) = [indexErrorMsg] ∧
    ["A", "E", "C"].filterMap (qualName exFetch "taxonomy") = ["Cname"] :=
  ⟨by decide,
   rankFilter_skips_empty_response exFetch "taxonomy" ["A", "E", "C"] (by decide),
   by decide, by decide⟩

/-- C6: a transport error (`HTTPError`) raised by a summary fetch is
not caught — the handler exists only as commented-out code — so the
exception propagates out of `get_taxonlist_species` and the caller
receives no partial result: the outcome is `Except.error ()`, which
carries none of the names accumulated for earlier identifiers. -/
theorem rankFilter_transport_error_propagates
    (esummary : String → String → Except Unit (List TaxonRecord))
    (ncbi_db : String) (taxonlist : List String)
    (h : ∃ taxon_id ∈ taxonlist, isHttpErr esummary ncbi_db taxon_id = true) :
    (get_taxonlist_species esummary taxonlist ncbi_db).2 = Except.error () := by
  rw [get_taxonlist_species]
  exact taxonLoop_httpErr esummary ncbi_db taxonlist h [] []

theorem rankFilter_transport_error_propagates_wit :
    (∃ taxon_id ∈ ["B", "H", "C"], isHttpErr exFetch "taxonomy" taxon_id = true) ∧
    (get_taxonlist_species exFetch ["B", "H", "C"]).2 = Except.error () :=
  ⟨by decide,
   rankFilter_transport_error_propagates exFetch "taxonomy" ["B", "H", "C"] (by decide)⟩

/-- C8: whenever `get_taxonlist_species` returns a list of names, that
list is at most as long as the input identifier list, and every
returned name is the scientific name of a record fetched for some
input identifier that satisfies the qualifying rank predicate. -/
theorem rankFilter_output_bounded_and_sound
    (esummary : String → String → Except Unit (List TaxonRecord))
    (ncbi_db : String) (taxonlist names : List String)
    (h : (get_taxonlist_species esummary taxonlist ncbi_db).2 = Except.ok names) :
    names.length ≤ taxonlist.length ∧
    ∀ name ∈ names, ∃ taxon_id ∈ taxonlist, ∃ record rs,
      esummary ncbi_db taxon_id = Except.ok (record :: rs) ∧
      qualifiesRecord record = true ∧ record.ScientificName = name := by
  rw [get_taxonlist_species] at h
  have hno := taxonLoop_ok_no_httpErr esummary ncbi_db taxonlist [] [] names h
  rw [taxonLoop_no_httpErr esummary ncbi_db taxonlist hno [] []] at h
  simp only [List.nil_append, Except.ok.injEq] at h
  subst h
  constructor
  · exact List.length_filterMap_le _ taxonlist
  · intro name hn
    obtain ⟨taxon_id, hmem, hqn⟩ := List.mem_filterMap.1 hn
    refine ⟨taxon_id, hmem, ?_⟩
    unfold qualName at hqn
    cases he : esummary ncbi_db taxon_id with
    | error e => rw [he] at hqn; exact Option.noConfusion hqn
    | ok resp =>
      cases resp with
      | nil => rw [he] at hqn; exact Option.noConfusion hqn
      | cons record rs =>
        rw [he] at hqn
        by_cases hq : qualifiesRecord record = true
        · refine ⟨record, rs, rfl, hq, ?_⟩
          simpa [hq] using hqn
        · simp [hq] at hqn

theorem rankFilter_output_bounded_and_sound_wit :
    (get_taxonlist_species exFetch ["A", "B", "C"]).2 = Except.ok ["Bname", "Cname"] ∧
    (["Bname", "Cname"] : List String).length ≤ (["A", "B", "C"] : List String).length :=
  ⟨by decide,
   (rankFilter_output_bounded_and_sound exFetch "taxonomy" ["A", "B", "C"]
     ["Bname", "Cname"] (by decide)).1⟩

/-- C9: `get_taxonlist_species` is deterministic given a stable remote
service: two runs on the same identifier list, against services whose
answers agree on every identifier of that list, produce identical
results (printed diagnostics and names alike).  Running the function
twice against one stable service is the special case where both
services coincide. -/
theorem rankFilter_stable_service_deterministic
    (esummary1 esummary2 : String → String → Except Unit (List TaxonRecord))
    (ncbi_db : String) (taxonlist : List String)
    (h : ∀ taxon_id ∈ taxonlist, esummary1 ncbi_db taxon_id = esummary2 ncbi_db taxon_id) :
    get_taxonlist_species esummary1 taxonlist ncbi_db =
      get_taxonlist_species esummary2 taxonlist ncbi_db := by
  rw [get_taxonlist_species, get_taxonlist_species]
  exact taxonLoop_congr esummary1 esummary2 ncbi_db taxonlist h [] []

theorem rankFilter_stable_service_deterministic_wit :
    (∀ taxon_id ∈ ["A", "B", "C"], exFetch "taxonomy" taxon_id = exFetch2 "taxonomy" taxon_id) ∧
    get_taxonlist_species exFetch ["A", "B", "C"] =
      get_taxonlist_species exFetch2 ["A", "B", "C"] :=
  ⟨by decide,
   rankFilter_stable_service_deterministic exFetch exFetch2 "taxonomy" ["A", "B", "C"]
     (by decide)⟩

/-! ## Helper lemmas about grouping and counting -/

theorem mem_insertKey {α : Type} [DecidableEq α] (ks : List α) (v a : α) :
    a ∈ insertKey ks v ↔ a ∈ ks ∨ a = v := by
  unfold insertKey
  split
  · next hv =>
      constructor
      · exact Or.inl
      · rintro (h | h)
        · exact h
        · exact h ▸ hv
  · simp [List.mem_append]

theorem nodup_insertKey {α : Type} [DecidableEq α] (ks : List α) (v : α)
    (h : ks.Nodup) : (insertKey ks v).Nodup := by
  unfold insertKey
  split
  · exact h
  · next hv => simp [List.nodup_append, h, hv]

theorem mem_foldl_insertKey {α : Type} [DecidableEq α] :
    ∀ (col ks : List α) (a : α), a ∈ col.foldl insertKey ks ↔ a ∈ ks ∨ a ∈ col
  | [], ks, a => by simp
  | v :: col, ks, a => by
    rw [List.foldl_cons, mem_foldl_insertKey col (insertKey ks v) a, mem_insertKey]
    simp only [List.mem_cons]
    tauto

theorem nodup_foldl_insertKey {α : Type} [DecidableEq α] :
    ∀ (col ks : List α), ks.Nodup → (col.foldl insertKey ks).Nodup
  | [], _, h => h
  | v :: col, ks, h => by
    rw [List.foldl_cons]
    exact nodup_foldl_insertKey col (insertKey ks v) (nodup_insertKey ks v h)

theorem mem_distinctKeys {α : Type} [DecidableEq α] (col : List α) (a : α) :
    a ∈ distinctKeys col ↔ a ∈ col := by
  rw [distinctKeys, mem_foldl_insertKey]
  simp

theorem nodup_distinctKeys {α : Type} [DecidableEq α] (col : List α) :
    (distinctKeys col).Nodup :=
  nodup_foldl_insertKey col [] List.nodup_nil

theorem distinctKeys_concat {α : Type} [DecidableEq α] (col : List α) (v : α) :
    distinctKeys (col ++ [v]) = insertKey (distinctKeys col) v := by
  rw [distinctKeys, distinctKeys, List.foldl_append]
  rfl

theorem keyCount_append {α : Type} [DecidableEq α] (col₁ col₂ : List α) (k : α) :
    keyCount (col₁ ++ col₂) k = keyCount col₁ k + keyCount col₂ k := by
  simp [keyCount, List.filter_append]

theorem keyCount_singleton {α : Type} [DecidableEq α] (v k : α) :
    keyCount [v] k = if v = k then 1 else 0 := by
  by_cases h : v = k <;> simp [keyCount, h]

theorem keyCount_cons {α : Type} [DecidableEq α] (a : α) (L : List α) (v : α) :
    keyCount (a :: L) v = (if a = v then 1 else 0) + keyCount L v := by
  by_cases h : a = v <;> simp [keyCount, List.filter_cons, h, Nat.add_comm]

theorem keyCount_eq_zero_of_not_mem {α : Type} [DecidableEq α] {col : List α} {k : α}
    (h : k ∉ col) : keyCount col k = 0 := by
  rw [keyCount, List.length_eq_zero, List.filter_eq_nil_iff]
  intro a ha
  simp only [decide_eq_true_eq]
  intro hak
  exact h (hak ▸ ha)

theorem keyCount_filter {α : Type} [DecidableEq α] (P : α → Bool) (L : List α) (v : α) :
    keyCount (L.filter P) v = if P v = true then keyCount L v else 0 := by
  induction L with
  | nil => by_cases h : P v = true <;> simp [keyCount, h]
  | cons a L ih =>
    by_cases hPa : P a = true
    · rw [List.filter_cons, if_pos hPa, keyCount_cons, keyCount_cons, ih]
      by_cases hPv : P v = true <;> by_cases hav : a = v <;> simp_all
    · rw [List.filter_cons, if_neg hPa, ih, keyCount_cons]
      by_cases hPv : P v = true <;> by_cases hav : a = v <;> simp_all

theorem keyCount_nodup {α : Type} [DecidableEq α] {L : List α} (h : L.Nodup) (v : α) :
    keyCount L v = if v ∈ L then 1 else 0 := by
  induction L with
  | nil => simp [keyCount]
  | cons a L ih =>
    rw [keyCount_cons]
    have ha : a ∉ L := (List.nodup_cons.1 h).1
    have hL : L.Nodup := (List.nodup_cons.1 h).2
    by_cases hav : a = v
    · subst hav
      simp [ha, ih hL]
    · have hva : ¬ v = a := fun e => hav e.symm
      simp [hav, hva, ih hL, List.mem_cons]

theorem sum_map_indicator {α : Type} [DecidableEq α] (v : α) :
    ∀ L : List α, (L.map (fun a => if v = a then 1 else 0)).sum = keyCount L v
  | [] => by simp [keyCount]
  | a :: L => by
    rw [List.map_cons, List.sum_cons, sum_map_indicator v L, keyCount_cons]
    by_cases h : a = v
    · subst h; simp
    · have hva : ¬ v = a := fun e => h e.symm
      simp [h, hva]

theorem sum_keyCount_distinct {α : Type} [DecidableEq α] (P : α → Bool) (col : List α) :
    (((distinctKeys col).filter P).map (fun a => keyCount col a)).sum =
      (col.filter P).length := by
  induction col using List.reverseRecOn with
  | nil => simp [distinctKeys, keyCount]
  | append_singleton col v ih =>
    rw [distinctKeys_concat]
    have hcnt : (fun a => keyCount (col ++ [v]) a) =
        (fun a => keyCount col a + (if v = a then 1 else 0)) := by
      funext a
      rw [keyCount_append, keyCount_singleton]
    rw [hcnt, List.sum_map_add, sum_map_indicator, keyCount_filter,
      List.filter_append, List.length_append]
    by_cases hv : v ∈ distinctKeys col
    · rw [insertKey, if_pos hv, ih,
        keyCount_nodup (nodup_distinctKeys col) v, if_pos hv]
      by_cases hP : P v = true <;> simp [hP]
    · have hvcol : v ∉ col := fun hh => hv ((mem_distinctKeys col v).2 hh)
      rw [insertKey, if_neg hv, List.filter_append, List.map_append, List.sum_append,
        keyCount_append, keyCount_nodup (nodup_distinctKeys col) v, if_neg hv,
        keyCount_singleton, if_pos rfl, ih]
      by_cases hP : P v = true <;>
        simp [hP, keyCount_eq_zero_of_not_mem hvcol]

theorem matchesFilters_true {sort_order : List String} {filter_list : Option (List String)}
    {k : Option String} (h : matchesFilters sort_order filter_list k = true) :
    ∃ s, k = some s ∧ s ∈ sort_order ∧ ∀ fl0, filter_list = some fl0 → s ∈ fl0 := by
  cases k with
  | none => simp [matchesFilters] at h
  | some s =>
    cases filter_list with
    | none =>
      simp [matchesFilters] at h
      exact ⟨s, rfl, h, fun fl0 hh => by cases hh⟩
    | some fl0 =>
      simp [matchesFilters] at h
      exact ⟨s, rfl, h.1, fun fl1 hh => by injection hh with e; exact e ▸ h.2⟩

theorem listedCat_of_matches {sort_order : List String} {filter_list : Option (List String)}
    {k : Option String} (h : matchesFilters sort_order filter_list k = true) :
    listedCat sort_order k = k := by
  obtain ⟨s, hk, hs, _⟩ := matchesFilters_true h
  subst hk
  simp [listedCat, hs]

theorem map_filter_congr {α β : Type} (f g : α → β) (p q : α → Bool)
    (hpq : ∀ a, p a = q a) (hfg : ∀ a, q a = true → f a = g a) :
    ∀ L : List α, (L.filter p).map f = (L.filter q).map g
  | [] => rfl
  | a :: L => by
    by_cases hq : q a = true
    · rw [List.filter_cons, List.filter_cons, hpq a, if_pos hq, if_pos hq,
        List.map_cons, List.map_cons, hfg a hq, map_filter_congr f g p q hpq hfg L]
    · rw [List.filter_cons, List.filter_cons, hpq a, if_neg hq, if_neg hq,
        map_filter_congr f g p q hpq hfg L]

/-- The aggregated rows behind the chart: exactly one row per distinct
category value of the raw column that survives the null/unlisted drop
and the optional `filter_list` restriction, carrying its occurrence
count. -/
theorem plot_bar_data_eq (df : List (Option String)) (sort_order : List String)
    (title x_title legend_title : String) (filter_list : Option (List String)) :
    (plot_bar df sort_order title x_title legend_title filter_list).data =
      ((distinctKeys df).filter (matchesFilters sort_order filter_list)).map
        (fun k => ⟨k, keyCount df k⟩) := by
  cases filter_list with
  | none =>
    simp only [plot_bar, group_by_len, List.map_map, List.filter_map]
    refine map_filter_congr _ _ _ _ ?_ ?_ (distinctKeys df)
    · intro k
      cases k with
      | none => simp [Function.comp, listedCat, matchesFilters]
      | some s =>
        by_cases hs : s ∈ sort_order <;>
          simp [Function.comp, listedCat, matchesFilters, hs]
    · intro k hk
      simp [Function.comp, listedCat_of_matches hk]
  | some fl0 =>
    simp only [plot_bar, group_by_len, List.map_map, List.filter_map, List.filter_filter]
    refine map_filter_congr _ _ _ _ ?_ ?_ (distinctKeys df)
    · intro k
      cases k with
      | none => simp [Function.comp, listedCat, matchesFilters, inFilterList]
      | some s =>
        by_cases hs : s ∈ sort_order <;>
          by_cases hf : s ∈ fl0 <;>
            simp [Function.comp, listedCat, matchesFilters, inFilterList, hs, hf]
    · intro k hk
      simp [Function.comp, listedCat_of_matches hk]

/-- The sum of the `len` column of the filtered aggregate equals the
number of raw rows surviving the drop and filter steps. -/
theorem plot_bar_len_sum (df : List (Option String)) (sort_order : List String)
    (title x_title legend_title : String) (filter_list : Option (List String)) :
    (((plot_bar df sort_order title x_title legend_title filter_list).data).map
        GroupRow.len).sum = totalAfterFilters df sort_order filter_list := by
  rw [plot_bar_data_eq, List.map_map]
  have hfun : (GroupRow.len ∘ fun k => (⟨k, keyCount df k⟩ : GroupRow)) =
      (fun a => keyCount df a) := rfl
  rw [hfun, sum_keyCount_distinct]
  rfl

theorem plot_bar_xtitle_raw (df : List (Option String)) (sort_order : List String)
    (title x_title legend_title : String) (filter_list : Option (List String)) :
    (plot_bar df sort_order title x_title legend_title filter_list).xTitle =
      x_title ++ ", N=" ++
        toString ((((plot_bar df sort_order title x_title legend_title
          filter_list).data).map GroupRow.len).sum) := by
  cases filter_list <;> rfl

/-! ## Claims about `plot_bar` -/

/-- C3: after grouping, every row whose category value is null or not
listed in `sort_order` is dropped before rendering, unconditionally
and independently of `filter_list`: every row of the rendered
aggregate is a group row of the raw grouping whose category is some
value listed in `sort_order`. -/
theorem plot_bar_drops_null_and_unlisted
    (df : List (Option String)) (sort_order : List String)
    (title x_title legend_title : String) (filter_list : Option (List String)) :
    ∀ r ∈ (plot_bar df sort_order title x_title legend_title filter_list).data,
      r ∈ group_by_len df ∧ ∃ s, r.cat = some s ∧ s ∈ sort_order := by
  intro r hr
  rw [plot_bar_data_eq] at hr
  obtain ⟨k, hk, hrk⟩ := List.mem_map.1 hr
  obtain ⟨hkK, hkP⟩ := List.mem_filter.1 hk
  obtain ⟨s, hks, hsso, _⟩ := matchesFilters_true hkP
  subst hrk
  refine ⟨?_, s, by simp [hks], hsso⟩
  rw [group_by_len]
  exact List.mem_map.2 ⟨k, hkK, rfl⟩

theorem plot_bar_drops_null_and_unlisted_wit :
    ((⟨some "x", 2⟩ : GroupRow) ∈
        (plot_bar [some "x", some "x", some "y", some "z", none] ["x", "y"]
          "t" "xt" "lt" none).data) ∧
    ((⟨some "x", 2⟩ : GroupRow) ∈
        group_by_len [some "x", some "x", some "y", some "z", none] ∧
      ∃ s, (⟨some "x", 2⟩ : GroupRow).cat = some s ∧ s ∈ ["x", "y"]) ∧
    (plot_bar [some "x", some "x", some "y", some "z", none] ["x", "y"]
        "t" "xt" "lt" none).data = [⟨some "x", 2⟩, ⟨some "y", 1⟩] :=
  ⟨by decide,
   plot_bar_drops_null_and_unlisted [some "x", some "x", some "y", some "z", none]
     ["x", "y"] "t" "xt" "lt" none ⟨some "x", 2⟩ (by decide),
   by decide⟩

/-- C4: the x-axis title of the returned chart is the string
`x_title ++ ", N=" ++ toString total`, where `total` is the number of
raw rows surviving the null/unlisted drop and the optional
`filter_list` restriction — equivalently, the sum of the per-category
counts after those steps (`plot_bar_len_sum`); and when
`filter_list = some fl0` the rendered aggregate is restricted to the
category values of `fl0` alone. -/
theorem plot_bar_xaxis_title_total_count
    (df : List (Option String)) (sort_order : List String)
    (title x_title legend_title : String) (filter_list : Option (List String)) :
    (plot_bar df sort_order title x_title legend_title filter_list).xTitle =
        x_title ++ ", N=" ++ toString (totalAfterFilters df sort_order filter_list) ∧
    ∀ fl0, filter_list = some fl0 →
      ∀ r ∈ (plot_bar df sort_order title x_title legend_title filter_list).data,
        ∃ s ∈ fl0, r.cat = some s := by
  constructor
  · rw [plot_bar_xtitle_raw, plot_bar_len_sum]
  · intro fl0 hfl r hr
    subst hfl
    rw [plot_bar_data_eq] at hr
    obtain ⟨k, hk, hrk⟩ := List.mem_map.1 hr
    obtain ⟨_, hkP⟩ := List.mem_filter.1 hk
    obtain ⟨s, hks, _, hin⟩ := matchesFilters_true hkP
    subst hrk
    exact ⟨s, hin fl0 rfl, by simp [hks]⟩

theorem plot_bar_xaxis_title_total_count_wit :
    (plot_bar [some "x", some "x", some "y", some "z", none] ["x", "y"]
        "t" "xt" "lt" (some ["x"])).xTitle =
      "xt" ++ ", N=" ++ toString (totalAfterFilters
        [some "x", some "x", some "y", some "z", none] ["x", "y"] (some ["x"])) ∧
    ((⟨some "x", 2⟩ : GroupRow) ∈
        (plot_bar [some "x", some "x", some "y", some "z", none] ["x", "y"]
          "t" "xt" "lt" (some ["x"])).data) ∧
    (∃ s ∈ ["x"], (⟨some "x", 2⟩ : GroupRow).cat = some s) ∧
    totalAfterFilters [some "x", some "x", some "y", some "z", none]
        ["x", "y"] (some ["x"]) = 2 ∧
    (plot_bar [some "x", some "x", some "y", some "z", none] ["x", "y"]
        "t" "xt" "lt" (some ["x"])).xTitle = "xt, N=2" :=
  ⟨(plot_bar_xaxis_title_total_count [some "x", some "x", some "y", some "z", none]
      ["x", "y"] "t" "xt" "lt" (some ["x"])).1,
   by decide,
   (plot_bar_xaxis_title_total_count [some "x", some "x", some "y", some "z", none]
      ["x", "y"] "t" "xt" "lt" (some ["x"])).2 ["x"] rfl ⟨some "x", 2⟩ (by decide),
   by decide, by decide⟩

/-! ## Claims about the heap behaviour of `plot_bar` -/

theorem readF_append : ∀ (h : Heap) (f : PyFrame) (t : List PyFrame),
    readF (h ++ f :: t) (List.length h) = f
  | [], _, _ => rfl
  | _ :: h, f, t => readF_append h f t

theorem set_append_self : ∀ (pre : List PyFrame) (x y : PyFrame) (t : List PyFrame),
    (pre ++ x :: t).set (List.length pre) y = pre ++ y :: t
  | [], _, _, _ => rfl
  | a :: pre, x, y, t => congrArg (List.cons a) (set_append_self pre x y t)

/-- C10 (amended): `plot_bar` never mutates the caller's dataframe.
Every dataframe statement of lines 78-84 except the categorical
re-typing of line 80 creates a fresh frame; line 80 assigns a column
in place, but only on the pandas copy created inside the call by
line 79.  Hence the heap after the call extends the heap before it:
every pre-existing frame — in particular the argument at `dfAddr` —
is unchanged. -/
theorem plot_bar_frames_caller_unchanged (h : Heap) (dfAddr : Nat)
    (sort_order : List String) (filter_list : Option (List String)) :
    ∃ t : List PyFrame, (plot_bar_frames h dfAddr sort_order filter_list).1 = h ++ t := by
  cases filter_list with
  | none =>
    apply Exists.intro
    simp only [plot_bar_frames, allocF, readF_append, set_append_self]
    rw [List.append_assoc, List.append_assoc, List.append_assoc]
  | some fl0 =>
    apply Exists.intro
    simp only [plot_bar_frames, allocF, readF_append, set_append_self]
    rw [List.append_assoc, List.append_assoc, List.append_assoc, List.append_assoc]

/-- C10, the claim as stated is refuted: the categorical re-typing of
line 80 does not produce a new frame bound to the local variable — it
assigns a column in place on the pandas copy made by line 79.  At this
concrete input the actual heap behaviour differs from the
allocation-only behaviour the claim describes: the frame at address 2
(the to_pandas copy) ends up holding the re-typed rows, while under
the claimed behaviour it would still hold the rows it was created
with. -/
theorem plot_bar_frames_retyping_in_place_cex :
    plot_bar_frames [PyFrame.raw [some "z"]] 0 ["x"] none ≠
      plot_bar_frames_allocOnly [PyFrame.raw [some "z"]] 0 ["x"] none ∧
    readF (plot_bar_frames [PyFrame.raw [some "z"]] 0 ["x"] none).1 2 =
      PyFrame.grouped [⟨none, 1⟩] ∧
    readF (plot_bar_frames_allocOnly [PyFrame.raw [some "z"]] 0 ["x"] none).1 2 =
      PyFrame.grouped [⟨some "z", 1⟩] := by
  refine ⟨?_, ?_, ?_⟩ <;> decide

end Utils
